import Mathlib

/-!
Verification of `evalap/api/metrics/llm_structured_output.py`.

The module is embedded shallowly: Python's dynamically typed JSON-like
values become the inductive type `JsonValue` (Python `None` is `.null`;
the constructor `.other` stands for any non-JSON Python object, which the
source treats as an atomic leaf).  Python floats are modelled by exact
rationals `ℚ`; every score arising in the claims is a small dyadic
rational, exactly representable as a float, so no rounding behaviour is
lost.  Fallible Python code is embedded in `Except PyErr`, with one error
constructor per exception class that can actually escape.

External collaborators (the `deepdiff` library, and Python's `json` /
`re` standard-library modules) are not code of this repository; they are
modelled from the spec where needed: the tree differ is a *parameter* of
the embedded functions (matching the source's call sites), and
`json.loads` is a parameter `jsonLoads : String → Option JsonValue`
(`none` models a raised `json.JSONDecodeError`).  The two regular
expression searches of the extractor are small enough to embed concretely.
-/

/-- Python JSON-like values. `.null` is Python `None`; `.other` stands for
any Python object that is none of the JSON shapes (the source's defensive
fallback case). Mapping keys are strings, as produced by `json.loads`. -/
inductive JsonValue where
  | null
  | bool (b : Bool)
  | num (q : ℚ)
  | str (s : String)
  | arr (xs : List JsonValue)
  | obj (fields : List (String × JsonValue))
  | other

/-- Python `data is None`. -/
def JsonValue.isNull : JsonValue → Bool
  | .null => true
  | _ => false

/-- Python `isinstance(data, dict)` / `type(data) is dict`. -/
def JsonValue.isObj : JsonValue → Bool
  | .obj _ => true
  | _ => false

mutual

/-- Source `count_total_values` (lines 43-60): recursively count all
values in a nested data structure; every leaf (including `None` and any
unrecognized object) counts 1, lists and dicts sum their elements /
values. -/
def count_total_values : JsonValue → Nat
  | .null => 1
  | .bool _ => 1
  | .num _ => 1
  | .str _ => 1
  | .arr xs => countValuesList xs
  | .obj fs => countValuesFields fs
  | .other => 1

/-- Python `sum(count_total_values(item) for item in data)` for a list. -/
def countValuesList : List JsonValue → Nat
  | [] => 0
  | x :: xs => count_total_values x + countValuesList xs

/-- Python `sum(count_total_values(value) for value in data.values())` for a dict. -/
def countValuesFields : List (String × JsonValue) → Nat
  | [] => 0
  | (_, v) :: fs => count_total_values v + countValuesFields fs

end

mutual

/-- Structural (Python `==`) equality of JSON-like values. -/
def JsonValue.beq : JsonValue → JsonValue → Bool
  | .null, .null => true
  | .bool a, .bool b => a == b
  | .num a, .num b => a == b
  | .str a, .str b => a == b
  | .arr xs, .arr ys => beqValuesList xs ys
  | .obj fs, .obj gs => beqValuesFields fs gs
  | .other, .other => true
  | _, _ => false

def beqValuesList : List JsonValue → List JsonValue → Bool
  | [], [] => true
  | x :: xs, y :: ys => JsonValue.beq x y && beqValuesList xs ys
  | _, _ => false

def beqValuesFields : List (String × JsonValue) → List (String × JsonValue) → Bool
  | [], [] => true
  | (k, v) :: fs, (l, w) :: gs => k == l && JsonValue.beq v w && beqValuesFields fs gs
  | _, _ => false

end

/-- The result of a `DeepDiff` call, as the scoring code consumes it
(source lines 90-115): for `values_changed` and `type_changes` only the
number of entries (`len`) is used, the `dictionary_item_*` categories are
iterated as collections of paths, and the `iterable_item_*` categories as
path-indexed mappings whose `.values()` are the added/removed elements.
An absent category is an empty collection. -/
structure DiffResult where
  values_changed : List String := []
  type_changes : List String := []
  dictionary_item_removed : List String := []
  iterable_item_removed : List JsonValue := []
  dictionary_item_added : List String := []
  iterable_item_added : List JsonValue := []

/-- Python truthiness of a `DeepDiff` result: falsy iff no differences,
i.e. every category is empty (`if not diff:` in the source). -/
def DiffResult.isEmpty (d : DiffResult) : Bool :=
  d.values_changed.isEmpty && d.type_changes.isEmpty &&
  d.dictionary_item_removed.isEmpty && d.iterable_item_removed.isEmpty &&
  d.dictionary_item_added.isEmpty && d.iterable_item_added.isEmpty

/-- The penalty count accumulated by `calculate_similarity_score`
(source lines 87-115), in the source's accumulation order. -/
def diffCount (diff : DiffResult) : Nat :=
  diff.values_changed.length + diff.type_changes.length +
  diff.dictionary_item_removed.length +
  (diff.iterable_item_removed.map count_total_values).sum +
  diff.dictionary_item_added.length +
  (diff.iterable_item_added.map count_total_values).sum

/-- Python's built-in `max` on two floats, embedded so that it reduces by
computation (Mathlib's lattice `max` on `ℚ` does not kernel-reduce). -/
def pymax (a b : ℚ) : ℚ := if a < b then b else a

/-- Source `calculate_similarity_score` (lines 63-122). Scores are exact
rationals standing for the Python floats. -/
def calculate_similarity_score (expected_data extracted_data : JsonValue)
    (diff : DiffResult) : ℚ :=
  if expected_data.isNull && extracted_data.isNull then 1
  else if expected_data.isNull || extracted_data.isNull then 0
  else if diff.isEmpty then 1
  else
    let total_expected_values := count_total_values expected_data
    let diff_count := diffCount diff
    if total_expected_values = 0 then (if diff_count = 0 then 1 else 0)
    else pymax 0 (1 - (diff_count : ℚ) / (total_expected_values : ℚ))

/-- Python `dict.get(key)` on the field list of an object: the value of
the (unique) matching key, or `None` when the key is absent. -/
def dictGet (fs : List (String × JsonValue)) (key : String) : JsonValue :=
  match fs.find? (fun p => p.1 == key) with
  | some p => p.2
  | none => .null

/-- The keys of a Python dict, in order. -/
def dictKeys (fs : List (String × JsonValue)) : List String :=
  fs.map Prod.fst

/-- Source `calculate_field_level_scores` (lines 125-153).  The structural
differ is the external `deepdiff.DeepDiff` capability invoked with
`ignore_order=True`; since it is not code of this repository it is passed
as a parameter `differ`.  `set(expected.keys()) | set(extracted.keys())`
is embedded as the deduplicated concatenation of the two key lists (Python
set iteration order is arbitrary; all claims about the result are
order-insensitive). -/
def calculate_field_level_scores (differ : JsonValue → JsonValue → DiffResult)
    (expected_data extracted_data : JsonValue) : List (String × ℚ) :=
  match expected_data, extracted_data with
  | .obj fs, .obj gs =>
    let all_keys := (dictKeys fs ++ dictKeys gs).dedup
    all_keys.map (fun key =>
      let expected_value := dictGet fs key
      let extracted_value := dictGet gs key
      let key_diff := differ expected_value extracted_value
      (key, calculate_similarity_score expected_value extracted_value key_diff))
  | _, _ => []

/-- The backquote character, U+0060. -/
def backquote : Char := Char.ofNat 96

/-- A raw LLM response as the source receives it: either a Python string
or an already-parsed Python value. -/
inductive PyResponse where
  | ofStr (s : String)
  | ofVal (v : JsonValue)

/-- Python exceptions that can escape the embedded functions.
`jsonDecodeError` is included because the source's top-level handler
names it, although `parse_json_from_response` can never raise it. -/
inductive PyErr where
  | typeError
  | jsonDecodeError
  | zeroDivisionError
deriving DecidableEq

/-- Modelled from the spec (and Python's `re`, external): the greedy
brace-delimited search of source line 25. A match of the DOTALL pattern
brace-dot-star-brace exists iff the first opening brace precedes the last
closing brace, and the (leftmost, greedy) matched substring then runs from
that first opening brace to that last closing brace. -/
def braceSearch (s : String) : Option String :=
  let cs := s.toList
  match cs.findIdx? (fun c => c == '{'), cs.reverse.findIdx? (fun c => c == '}') with
  | some i, some jr =>
    let j := cs.length - 1 - jr
    if i < j then some (String.mk ((cs.drop i).take (j - i + 1))) else none
  | _, _ => none

/-- Lazy scan for the closing brace of the fenced-code-block pattern of
source line 33: the group ends at the first closing brace that is
followed by optional whitespace and a closing triple-backquote fence.
`acc` holds the group's inner characters in reverse. -/
def fenceClose (acc : List Char) : List Char → Option (List Char)
  | [] => none
  | c :: rest =>
    if c == '}' &&
        (rest.dropWhile Char.isWhitespace).take 3 == [backquote, backquote, backquote] then
      some (('{' :: acc.reverse) ++ ['}'])
    else fenceClose (c :: acc) rest

/-- Match the fenced-code-block pattern of source line 33 anchored at the
head of `cs`: a triple-backquote fence, an optional literal tag "json",
optional whitespace, then a lazily matched brace-delimited group followed
by optional whitespace and a closing fence. Python's backslash-s is
modelled by `Char.isWhitespace`. -/
def fenceAt (cs : List Char) : Option (List Char) :=
  if cs.take 3 == [backquote, backquote, backquote] then
    let rest := cs.drop 3
    let rest := if rest.take 4 == ['j', 's', 'o', 'n'] then rest.drop 4 else rest
    let rest := rest.dropWhile Char.isWhitespace
    match rest with
    | c :: tail => if c == '{' then fenceClose [] tail else none
    | [] => none
  else none

/-- Leftmost search for the fenced-code-block pattern. -/
def fenceScan : List Char → Option (List Char)
  | [] => none
  | c :: rest =>
    match fenceAt (c :: rest) with
    | some g => some g
    | none => fenceScan rest

/-- Modelled from the spec (and Python's `re`, external): the
markdown-code-block search of source line 33, returning the captured
brace-delimited group of the leftmost match. -/
def fenceSearch (s : String) : Option String :=
  (fenceScan s.toList).map String.mk

/-- The string-input path of `parse_json_from_response` (source lines
17-40): try `json.loads` on the whole string, then on the greedy
brace-delimited substring, then on the fenced-code-block payload; every
`json.JSONDecodeError` is caught, and when all three attempts fail the
function returns Python `None` (here `.null`). `jsonLoads` is Python's
`json.loads` (standard library, external to this repository), modelled as
a parameter; `none` stands for a raised `json.JSONDecodeError`. -/
def extract_from_string (jsonLoads : String → Option JsonValue) (s : String) : JsonValue :=
  match jsonLoads s with
  | some v => v
  | none =>
    match (braceSearch s).bind jsonLoads with
    | some v => v
    | none =>
      match (fenceSearch s).bind jsonLoads with
      | some v => v
      | none => .null

/-- Source `parse_json_from_response` (lines 9-40). A `dict` input is
passed through unchanged (source line 14); any other non-string input
reaches `json.loads(response)`, which raises `TypeError` for a non-string
argument, and that exception is not caught by the source's
`except json.JSONDecodeError` clauses, so it escapes. A string input
never raises: the result is an `.ok` value, with `.ok .null` standing for
the source's `return None` failure signal (indistinguishable from a
successfully parsed JSON `null`). -/
def parse_json_from_response (jsonLoads : String → Option JsonValue) :
    PyResponse → Except PyErr JsonValue
  | .ofVal v => if v.isObj then .ok v else .error .typeError
  | .ofStr s => .ok (extract_from_string jsonLoads s)

/-- Source `llm_structured_output_metric` (lines 156-202). `deepDiff` is
the external `deepdiff.DeepDiff` capability, passed as a parameter; its
boolean argument is the `ignore_order` option (source lines 147 and 184).
The observation dict passed to `json.dumps` is returned as a `JsonValue`
(its serialization is not modelled). The source's
`except json.JSONDecodeError` handler around the ground-truth parse is
embedded faithfully (first branch) even though `parse_json_from_response`
can never raise that exception; the handler's message prefix stands for
the source's f-string with the exception text appended. The unguarded
division by `len(field_scores)` is embedded as a `zeroDivisionError` when
the field score map is empty. -/
def llm_structured_output_metric (jsonLoads : String → Option JsonValue)
    (deepDiff : Bool → JsonValue → JsonValue → DiffResult)
    (output output_true : PyResponse) : Except PyErr (ℚ × JsonValue × PyResponse) :=
  match parse_json_from_response jsonLoads output_true with
  | .error .jsonDecodeError =>
    match output_true with
    | .ofStr s =>
      .ok (0, .obj [("error", .str "Failed to parse ground truth JSON"),
                    ("output_true", .str (s.take 500))], output)
    | .ofVal _ => .error .typeError
  | .error e => .error e
  | .ok expected_data =>
    match parse_json_from_response jsonLoads output with
    | .error e => .error e
    | .ok extracted_data =>
      if extracted_data.isNull then
        .ok (0, .obj [("score", .num 0),
                      ("error", .str "Failed to extract valid JSON from LLM response"),
                      ("expected_data", expected_data)], output)
      else
        let _diff := deepDiff false expected_data extracted_data
        let field_scores :=
          calculate_field_level_scores (deepDiff true) expected_data extracted_data
        if field_scores.length = 0 then .error .zeroDivisionError
        else
          let overall_score := (field_scores.map Prod.snd).sum / (field_scores.length : ℚ)
          .ok (overall_score,
               .obj [("score", .num overall_score),
                     ("extracted_data", extracted_data),
                     ("expected_data", expected_data),
                     ("field_scores", .obj (field_scores.map (fun p => (p.1, JsonValue.num p.2))))],
               output)

/-- Componentwise union of two diff results (used when a diff of a
container aggregates the diffs of its parts). -/
def DiffResult.merge (d e : DiffResult) : DiffResult where
  values_changed := d.values_changed ++ e.values_changed
  type_changes := d.type_changes ++ e.type_changes
  dictionary_item_removed := d.dictionary_item_removed ++ e.dictionary_item_removed
  iterable_item_removed := d.iterable_item_removed ++ e.iterable_item_removed
  dictionary_item_added := d.dictionary_item_added ++ e.dictionary_item_added
  iterable_item_added := d.iterable_item_added ++ e.iterable_item_added

/-- Constructor discriminant, to tell a changed value (same type) from a
changed type. -/
def JsonValue.kindIdx : JsonValue → Nat
  | .null => 0
  | .bool _ => 1
  | .num _ => 2
  | .str _ => 3
  | .arr _ => 4
  | .obj _ => 5
  | .other => 6

/-- Remove the first occurrence of `x` from a list, if present. -/
def removeFirst (x : JsonValue) : List JsonValue → Option (List JsonValue)
  | [] => none
  | y :: ys =>
    if JsonValue.beq x y then some ys
    else
      match removeFirst x ys with
      | some ys2 => some (y :: ys2)
      | none => none

/-- Multiset comparison of two element lists: the elements of the first
list with no match in the second (removed), and the unmatched leftovers of
the second (added). -/
def multisetRemovedAdded : List JsonValue → List JsonValue → List JsonValue × List JsonValue
  | [], bs => ([], bs)
  | a :: as, bs =>
    match removeFirst a bs with
    | some bs2 => multisetRemovedAdded as bs2
    | none =>
      let p := multisetRemovedAdded as bs
      (a :: p.1, p.2)

/-- Modelled from the spec: the external tree differ `deepdiff.DeepDiff`
(spec section 4.3), which is consumed but not implemented by the
repository. Equal trees diff to empty; mappings report one-sided keys as
`dictionary_item_removed` / `dictionary_item_added` and recurse on common
keys; sequences are compared as multisets when `ignore_order` is set and
positionally otherwise, reporting unmatched elements as
`iterable_item_removed` / `iterable_item_added`; unequal leaves report one
`values_changed` entry when the types agree and one `type_changes` entry
otherwise. `fuel` bounds the recursion depth and is chosen at the wrapper
below to exceed any input's size. -/
def deepDiffFuel : Nat → Bool → JsonValue → JsonValue → DiffResult
  | 0, _, _, _ => {}
  | fuel + 1, ignoreOrder, a, b =>
    if JsonValue.beq a b then {}
    else
      match a, b with
      | .obj fs, .obj gs =>
        let removedKeys := (dictKeys fs).filter (fun k => !(dictKeys gs).contains k)
        let addedKeys := (dictKeys gs).filter (fun k => !(dictKeys fs).contains k)
        let commonKeys := (dictKeys fs).filter (fun k => (dictKeys gs).contains k)
        let base : DiffResult :=
          { dictionary_item_removed := removedKeys, dictionary_item_added := addedKeys }
        commonKeys.foldl
          (fun acc k => acc.merge (deepDiffFuel fuel ignoreOrder (dictGet fs k) (dictGet gs k)))
          base
      | .arr xs, .arr ys =>
        if ignoreOrder then
          let p := multisetRemovedAdded xs ys
          { iterable_item_removed := p.1, iterable_item_added := p.2 }
        else
          let pairwise : DiffResult := (xs.zip ys).foldl
            (fun acc p => DiffResult.merge acc (deepDiffFuel fuel ignoreOrder p.1 p.2))
            ({} : DiffResult)
          pairwise.merge
            { iterable_item_removed := xs.drop ys.length,
              iterable_item_added := ys.drop xs.length }
      | x, y =>
        if x.kindIdx == y.kindIdx then { values_changed := ["root"] }
        else { type_changes := ["root"] }

/-- Modelled from the spec: `deepdiff.DeepDiff` with a recursion budget
large enough for every input exercised here. -/
def deepDiffModel (ignoreOrder : Bool) (a b : JsonValue) : DiffResult :=
  deepDiffFuel 1000 ignoreOrder a b

/-- The spec's reference definition of the similarity score, written from
the words of spec section 4.4: both sides `None` gives 1.0; exactly one
`None` gives 0.0; an empty diff gives 1.0; otherwise the penalty is one
per `values_changed` entry, one per `type_changes` entry, one per
`dictionary_item_removed` and `dictionary_item_added` entry regardless of
the value's internal size, and `count_total_values` of each
`iterable_item_removed` and `iterable_item_added` element; with a zero
denominator the score is 1.0 exactly when the penalty is zero, and
otherwise the score is `max 0 (1 - penalty / denominator)`. -/
def spec_similarity_score (expected extracted : JsonValue) (diff : DiffResult) : ℚ :=
  if expected.isNull then (if extracted.isNull then 1 else 0)
  else if extracted.isNull then 0
  else if diff.isEmpty then 1
  else
    let penalty : Nat :=
      diff.values_changed.length + diff.type_changes.length +
      diff.dictionary_item_removed.length + diff.dictionary_item_added.length +
      (diff.iterable_item_removed.map count_total_values).sum +
      (diff.iterable_item_added.map count_total_values).sum
    let denominator := count_total_values expected
    if denominator = 0 then (if penalty = 0 then 1 else 0)
    else pymax 0 (1 - (penalty : ℚ) / (denominator : ℚ))

/-- A concrete instance of the external `json.loads` covering the inputs
used in the concrete scenarios below; every other string is treated as
unparseable (a raised `json.JSONDecodeError`). -/
def jsonLoadsTable (s : String) : Option JsonValue :=
  if s = "\x7b\x7d" then some (.obj [])
  else if s = "\x7b\"x\":1\x7d" then some (.obj [("x", .num 1)])
  else if s = "\x7b\"name\":\"Alice\",\"age\":30\x7d" then
    some (.obj [("name", .str "Alice"), ("age", .num 30)])
  else if s = "\x7b\"name\":\"Alice\",\"age\":31\x7d" then
    some (.obj [("name", .str "Alice"), ("age", .num 31)])
  else none

theorem countValuesList_eq_map_sum (xs : List JsonValue) :
    countValuesList xs = (xs.map count_total_values).sum := by
  induction xs with
  | nil => rfl
  | cons x xs ih => simp [countValuesList, ih]

theorem countValuesFields_eq_map_sum (fs : List (String × JsonValue)) :
    countValuesFields fs = (fs.map (fun p => count_total_values p.2)).sum := by
  induction fs with
  | nil => rfl
  | cons p fs ih => simp [countValuesFields, ih]

theorem pymax_zero_nonneg (x : ℚ) : 0 ≤ pymax 0 x := by
  unfold pymax
  split
  · exact le_of_lt (by assumption)
  · exact le_refl 0

theorem pymax_zero_le_one (x : ℚ) (h : x ≤ 1) : pymax 0 x ≤ 1 := by
  unfold pymax
  split
  · exact h
  · exact zero_le_one

theorem calculate_similarity_score_nonneg (e x : JsonValue) (d : DiffResult) :
    0 ≤ calculate_similarity_score e x d := by
  unfold calculate_similarity_score
  split_ifs with h1 h2 h3
  · exact zero_le_one
  · exact le_refl 0
  · exact zero_le_one
  · dsimp only
    split_ifs with h4 h5
    · exact zero_le_one
    · exact le_refl 0
    · exact pymax_zero_nonneg _

theorem calculate_similarity_score_le_one (e x : JsonValue) (d : DiffResult) :
    calculate_similarity_score e x d ≤ 1 := by
  unfold calculate_similarity_score
  split_ifs with h1 h2 h3
  · exact le_refl 1
  · exact zero_le_one
  · exact le_refl 1
  · dsimp only
    split_ifs with h4 h5
    · exact le_refl 1
    · exact zero_le_one
    · refine pymax_zero_le_one _ ?_
      have hd : (0 : ℚ) ≤ (diffCount d : ℚ) / (count_total_values e : ℚ) :=
        div_nonneg (Nat.cast_nonneg _) (Nat.cast_nonneg _)
      linarith

theorem field_scores_keys (differ : JsonValue → JsonValue → DiffResult)
    (fs gs : List (String × JsonValue)) :
    (calculate_field_level_scores differ (.obj fs) (.obj gs)).map Prod.fst =
      (dictKeys fs ++ dictKeys gs).dedup := by
  simp [calculate_field_level_scores, List.map_map, Function.comp_def]

theorem mem_field_scores_iff (differ : JsonValue → JsonValue → DiffResult)
    (fs gs : List (String × JsonValue)) (k : String) (s : ℚ) :
    (k, s) ∈ calculate_field_level_scores differ (.obj fs) (.obj gs) ↔
      ((k ∈ dictKeys fs ∨ k ∈ dictKeys gs) ∧
        s = calculate_similarity_score (dictGet fs k) (dictGet gs k)
              (differ (dictGet fs k) (dictGet gs k))) := by
  simp only [calculate_field_level_scores, List.mem_map, List.mem_dedup, List.mem_append,
    Prod.mk.injEq]
  constructor
  · rintro ⟨key, hkey, hk, hs⟩
    subst hk
    exact ⟨hkey, hs.symm⟩
  · rintro ⟨hkey, hs⟩
    exact ⟨k, hkey, rfl, hs.symm⟩

theorem field_scores_mem_bounds (differ : JsonValue → JsonValue → DiffResult)
    (e x : JsonValue) (k : String) (s : ℚ)
    (h : (k, s) ∈ calculate_field_level_scores differ e x) : 0 ≤ s ∧ s ≤ 1 := by
  unfold calculate_field_level_scores at h
  split at h
  · simp only [List.mem_map] at h
    obtain ⟨key, hkey, hpair⟩ := h
    cases hpair
    exact ⟨calculate_similarity_score_nonneg _ _ _, calculate_similarity_score_le_one _ _ _⟩
  · exact absurd h (List.not_mem_nil _)

theorem mean_bounds (l : List ℚ) (hne : l ≠ []) (h : ∀ q ∈ l, 0 ≤ q ∧ q ≤ 1) :
    0 ≤ l.sum / (l.length : ℚ) ∧ l.sum / (l.length : ℚ) ≤ 1 := by
  have hlen : (0 : ℚ) < (l.length : ℚ) := by
    have := List.length_pos.mpr hne
    exact_mod_cast this
  have hsum0 : 0 ≤ l.sum := List.sum_nonneg (fun q hq => (h q hq).1)
  have hsum1 : l.sum ≤ (l.length : ℚ) := by
    have := List.sum_le_card_nsmul l 1 (fun q hq => (h q hq).2)
    simpa using this
  constructor
  · exact div_nonneg hsum0 (le_of_lt hlen)
  · rw [div_le_one hlen]
    exact hsum1

theorem metric_ok_score_shape (jsonLoads : String → Option JsonValue)
    (dd : Bool → JsonValue → JsonValue → DiffResult) (output output_true : PyResponse)
    (s : ℚ) (obs : JsonValue) (echoed : PyResponse)
    (h : llm_structured_output_metric jsonLoads dd output output_true = .ok (s, obs, echoed)) :
    s = 0 ∨
    ∃ e x, parse_json_from_response jsonLoads output_true = .ok e ∧
      parse_json_from_response jsonLoads output = .ok x ∧
      x.isNull = false ∧
      calculate_field_level_scores (dd true) e x ≠ [] ∧
      s = ((calculate_field_level_scores (dd true) e x).map Prod.snd).sum /
            ((calculate_field_level_scores (dd true) e x).length : ℚ) := by
  unfold llm_structured_output_metric at h
  split at h
  · split at h
    · simp only [Except.ok.injEq, Prod.mk.injEq] at h
      exact Or.inl h.1.symm
    · exact absurd h (by simp)
  · exact absurd h (by simp)
  · rename_i expected_data heq1
    split at h
    · exact absurd h (by simp)
    · rename_i extracted_data heq2
      split at h
      · rename_i hnull
        simp only [Except.ok.injEq, Prod.mk.injEq] at h
        exact Or.inl h.1.symm
      · rename_i hnull
        dsimp only at h
        split at h
        · exact absurd h (by simp)
        · rename_i hlen
          simp only [Except.ok.injEq, Prod.mk.injEq] at h
          refine Or.inr ⟨expected_data, extracted_data, heq1, heq2, ?_, ?_, ?_⟩
          · exact Bool.not_eq_true _ ▸ (by simpa using hnull)
          · intro hnil
            exact hlen (by simp [hnil])
          · exact h.1.symm

/-- C1: `calculate_similarity_score` conforms to the spec's reference
definition: both sides `None` gives 1.0; exactly one `None` gives 0.0; an
empty diff gives 1.0; otherwise the score is
`max 0 (1 - diff_count / count_total_values expected)` with the penalty
counted per category as the spec prescribes, and a zero denominator gives
1.0 exactly when the penalty is zero. -/
theorem similarity_score_tail (e x : JsonValue) (d : DiffResult)
    (he : e.isNull = false) (hx : x.isNull = false) :
    calculate_similarity_score e x d = spec_similarity_score e x d := by
  unfold calculate_similarity_score spec_similarity_score
  rw [he, hx]
  simp only [Bool.and_self, Bool.or_self, Bool.false_eq_true, if_false]
  split
  · rfl
  · have hc : diffCount d =
        d.values_changed.length + d.type_changes.length +
        d.dictionary_item_removed.length + d.dictionary_item_added.length +
        (d.iterable_item_removed.map count_total_values).sum +
        (d.iterable_item_added.map count_total_values).sum := by
      unfold diffCount
      omega
    rw [hc]

theorem C1_calculate_similarity_score_conforms_to_spec
    (e x : JsonValue) (d : DiffResult) :
    calculate_similarity_score e x d = spec_similarity_score e x d := by
  cases he : e.isNull with
  | false =>
    cases hx : x.isNull with
    | false => exact similarity_score_tail e x d he hx
    | true =>
      unfold calculate_similarity_score spec_similarity_score
      rw [he, hx]
      simp
  | true =>
    cases hx : x.isNull with
    | false =>
      unfold calculate_similarity_score spec_similarity_score
      rw [he, hx]
      simp
    | true =>
      unfold calculate_similarity_score spec_similarity_score
      rw [he, hx]
      simp

/-- C2: the claim that no exception (in particular no division-by-zero on
an empty field score map) ever escapes the entry point is violated by the
code: with output `"{}"` and ground truth `"{}"` both sides parse to the
empty mapping, the field score map is empty, and the unguarded division by
`len(field_scores)` raises `ZeroDivisionError`. -/
theorem C2_empty_field_scores_division_by_zero :
    llm_structured_output_metric jsonLoadsTable deepDiffModel
      (.ofStr "\x7b\x7d") (.ofStr "\x7b\x7d") = .error .zeroDivisionError := rfl

/-- C3: every score the module produces lies in [0, 1]: every result of
`calculate_similarity_score`, every value of the field score map, and
every overall score actually returned by `llm_structured_output_metric`,
for arbitrary inputs and any external differ and JSON parser. -/
theorem C3_every_score_in_unit_interval :
    (∀ e x d, 0 ≤ calculate_similarity_score e x d ∧ calculate_similarity_score e x d ≤ 1) ∧
    (∀ differ e x k s, (k, s) ∈ calculate_field_level_scores differ e x → 0 ≤ s ∧ s ≤ 1) ∧
    (∀ jsonLoads dd output output_true s obs echoed,
      llm_structured_output_metric jsonLoads dd output output_true = .ok (s, obs, echoed) →
      0 ≤ s ∧ s ≤ 1) := by
  refine ⟨fun e x d =>
      ⟨calculate_similarity_score_nonneg e x d, calculate_similarity_score_le_one e x d⟩,
    fun differ e x k s h => field_scores_mem_bounds differ e x k s h, ?_⟩
  intro jsonLoads dd output output_true s obs echoed h
  rcases metric_ok_score_shape _ _ _ _ _ _ _ h with hs | ⟨e, x, -, -, -, hne, hs⟩
  · subst hs
    exact ⟨le_refl 0, zero_le_one⟩
  · subst hs
    have hb : ∀ q ∈ (calculate_field_level_scores (dd true) e x).map Prod.snd,
        0 ≤ q ∧ q ≤ 1 := by
      intro q hq
      simp only [List.mem_map] at hq
      obtain ⟨⟨k, q'⟩, hmem, hq⟩ := hq
      cases hq
      exact field_scores_mem_bounds (dd true) e x k q' hmem
    have hlenmap : ((calculate_field_level_scores (dd true) e x).length : ℚ) =
        (((calculate_field_level_scores (dd true) e x).map Prod.snd).length : ℚ) := by
      rw [List.length_map]
    rw [hlenmap]
    refine mean_bounds _ ?_ hb
    intro hnil
    exact hne (by simpa using hnil)

/-- C4: `count_total_values` counts 1 for every atomic leaf (null,
boolean, number, string and any unrecognized shape), sums element counts
over sequences (empty sequence counts 0), and sums value counts over
mappings, ignoring keys (empty mapping counts 0). -/
theorem C4_count_total_values_shape :
    count_total_values .null = 1 ∧
    (∀ b, count_total_values (.bool b) = 1) ∧
    (∀ q, count_total_values (.num q) = 1) ∧
    (∀ s, count_total_values (.str s) = 1) ∧
    count_total_values .other = 1 ∧
    (∀ xs, count_total_values (.arr xs) = (xs.map count_total_values).sum) ∧
    count_total_values (.arr []) = 0 ∧
    (∀ fs, count_total_values (.obj fs) = (fs.map (fun p => count_total_values p.2)).sum) ∧
    count_total_values (.obj []) = 0 := by
  refine ⟨rfl, fun b => rfl, fun q => rfl, fun s => rfl, rfl, ?_, rfl, ?_, rfl⟩
  · intro xs
    rw [show count_total_values (.arr xs) = countValuesList xs from rfl,
      countValuesList_eq_map_sum]
  · intro fs
    rw [show count_total_values (.obj fs) = countValuesFields fs from rfl,
      countValuesFields_eq_map_sum]

theorem metric_success_eval (jsonLoads : String → Option JsonValue)
    (dd : Bool → JsonValue → JsonValue → DiffResult) (output output_true : PyResponse)
    (e x : JsonValue)
    (h1 : parse_json_from_response jsonLoads output_true = .ok e)
    (h2 : parse_json_from_response jsonLoads output = .ok x)
    (hx : x.isNull = false)
    (hne : calculate_field_level_scores (dd true) e x ≠ []) :
    llm_structured_output_metric jsonLoads dd output output_true =
      .ok (((calculate_field_level_scores (dd true) e x).map Prod.snd).sum /
             ((calculate_field_level_scores (dd true) e x).length : ℚ),
           .obj [("score", .num (((calculate_field_level_scores (dd true) e x).map Prod.snd).sum /
                    ((calculate_field_level_scores (dd true) e x).length : ℚ))),
                 ("extracted_data", x), ("expected_data", e),
                 ("field_scores", .obj ((calculate_field_level_scores (dd true) e x).map
                    (fun p => (p.1, JsonValue.num p.2))))],
           output) := by
  unfold llm_structured_output_metric
  rw [h1, h2]
  dsimp only
  rw [hx]
  rw [if_neg (by simp)]
  rw [if_neg (fun hlen => hne (List.length_eq_zero.mp hlen))]

theorem metric_degenerate_eval (jsonLoads : String → Option JsonValue)
    (dd : Bool → JsonValue → JsonValue → DiffResult) (output output_true : PyResponse)
    (e x : JsonValue)
    (h1 : parse_json_from_response jsonLoads output_true = .ok e)
    (h2 : parse_json_from_response jsonLoads output = .ok x)
    (hx : x.isNull = false)
    (hne : calculate_field_level_scores (dd true) e x = []) :
    llm_structured_output_metric jsonLoads dd output output_true =
      .error .zeroDivisionError := by
  unfold llm_structured_output_metric
  rw [h1, h2]
  dsimp only
  rw [hx]
  rw [if_neg (by simp)]
  rw [if_pos (by rw [hne]; rfl)]

/-- C5: whenever both parses succeed (the extracted side is not the `None`
failure signal) and the metric returns a score, that score is the
arithmetic mean of the field-level scores; in particular, for ground truth
`'{"name":"Alice","age":30}'` and output `'{"name":"Alice","age":31}'`
(under any JSON parser and differ agreeing with `json.loads` and
`DeepDiff` on those inputs) the metric returns score 1/2 with field scores
name → 1 and age → 0. -/
theorem C5_overall_score_is_mean_of_field_scores :
    (∀ jsonLoads dd output output_true e x s obs echoed,
      parse_json_from_response jsonLoads output_true = Except.ok e →
      parse_json_from_response jsonLoads output = Except.ok x →
      x.isNull = false →
      llm_structured_output_metric jsonLoads dd output output_true = .ok (s, obs, echoed) →
      s = ((calculate_field_level_scores (dd true) e x).map Prod.snd).sum /
            ((calculate_field_level_scores (dd true) e x).length : ℚ)) ∧
    (∀ jsonLoads dd (p : String),
      jsonLoads "\x7b\"name\":\"Alice\",\"age\":30\x7d" =
        some (.obj [("name", .str "Alice"), ("age", .num 30)]) →
      jsonLoads "\x7b\"name\":\"Alice\",\"age\":31\x7d" =
        some (.obj [("name", .str "Alice"), ("age", .num 31)]) →
      dd true (.str "Alice") (.str "Alice") = {} →
      dd true (.num 30) (.num 31) = { values_changed := [p] } →
      calculate_field_level_scores (dd true)
          (.obj [("name", .str "Alice"), ("age", .num 30)])
          (.obj [("name", .str "Alice"), ("age", .num 31)]) = [("name", 1), ("age", 0)] ∧
      llm_structured_output_metric jsonLoads dd
        (.ofStr "\x7b\"name\":\"Alice\",\"age\":31\x7d")
        (.ofStr "\x7b\"name\":\"Alice\",\"age\":30\x7d") =
        .ok (1 / 2,
             .obj [("score", .num (1 / 2)),
                   ("extracted_data", .obj [("name", .str "Alice"), ("age", .num 31)]),
                   ("expected_data", .obj [("name", .str "Alice"), ("age", .num 30)]),
                   ("field_scores", .obj [("name", .num 1), ("age", .num 0)])],
             .ofStr "\x7b\"name\":\"Alice\",\"age\":31\x7d")) := by
  constructor
  · intro jsonLoads dd output output_true e x s obs echoed h1 h2 hx h4
    by_cases hne : calculate_field_level_scores (dd true) e x = []
    · rw [metric_degenerate_eval jsonLoads dd output output_true e x h1 h2 hx hne] at h4
      exact absurd h4 (by simp)
    · rw [metric_success_eval jsonLoads dd output output_true e x h1 h2 hx hne] at h4
      simp only [Except.ok.injEq, Prod.mk.injEq] at h4
      exact h4.1.symm
  · intro jsonLoads dd p hjl30 hjl31 hdd1 hdd2
    have hage : calculate_similarity_score (.num 30) (.num 31) (dd true (.num 30) (.num 31)) =
        0 := by
      rw [hdd2]
      unfold calculate_similarity_score
      norm_num [JsonValue.isNull, DiffResult.isEmpty, diffCount, count_total_values, pymax]
    have hname : calculate_similarity_score (.str "Alice") (.str "Alice")
        (dd true (.str "Alice") (.str "Alice")) = 1 := by
      rw [hdd1]
      rfl
    have hfield : calculate_field_level_scores (dd true)
        (.obj [("name", .str "Alice"), ("age", .num 30)])
        (.obj [("name", .str "Alice"), ("age", .num 31)]) = [("name", 1), ("age", 0)] := by
      unfold calculate_field_level_scores
      dsimp only
      rw [show (dictKeys [("name", JsonValue.str "Alice"), ("age", JsonValue.num 30)] ++
          dictKeys [("name", JsonValue.str "Alice"), ("age", JsonValue.num 31)]).dedup =
          ["name", "age"] from by decide]
      simp only [List.map_cons, List.map_nil]
      rw [show dictGet [("name", JsonValue.str "Alice"), ("age", JsonValue.num 30)] "name" =
          JsonValue.str "Alice" from rfl,
        show dictGet [("name", JsonValue.str "Alice"), ("age", JsonValue.num 31)] "name" =
          JsonValue.str "Alice" from rfl,
        show dictGet [("name", JsonValue.str "Alice"), ("age", JsonValue.num 30)] "age" =
          JsonValue.num 30 from rfl,
        show dictGet [("name", JsonValue.str "Alice"), ("age", JsonValue.num 31)] "age" =
          JsonValue.num 31 from rfl]
      rw [hname, hage]
    have h1p : parse_json_from_response jsonLoads
        (.ofStr "\x7b\"name\":\"Alice\",\"age\":30\x7d") =
        .ok (.obj [("name", .str "Alice"), ("age", .num 30)]) := by
      simp [parse_json_from_response, extract_from_string, hjl30]
    have h2p : parse_json_from_response jsonLoads
        (.ofStr "\x7b\"name\":\"Alice\",\"age\":31\x7d") =
        .ok (.obj [("name", .str "Alice"), ("age", .num 31)]) := by
      simp [parse_json_from_response, extract_from_string, hjl31]
    refine ⟨hfield, ?_⟩
    have hm := metric_success_eval jsonLoads dd
      (.ofStr "\x7b\"name\":\"Alice\",\"age\":31\x7d")
      (.ofStr "\x7b\"name\":\"Alice\",\"age\":30\x7d")
      (.obj [("name", .str "Alice"), ("age", .num 30)])
      (.obj [("name", .str "Alice"), ("age", .num 31)])
      h1p h2p rfl (by rw [hfield]; simp)
    rw [hfield] at hm
    rw [hm]
    norm_num

theorem dictGet_eq_null_of_not_mem (fs : List (String × JsonValue)) (k : String)
    (h : k ∉ dictKeys fs) : dictGet fs k = .null := by
  unfold dictGet
  cases hf : fs.find? (fun p => p.1 == k) with
  | none => rfl
  | some p =>
    exfalso
    apply h
    have hmem := List.mem_of_find?_eq_some hf
    have hp : p.1 = k := by simpa using List.find?_some hf
    exact List.mem_map.mpr ⟨p, hmem, hp⟩

theorem similarity_score_null_extracted (e : JsonValue) (he : e.isNull = false)
    (d : DiffResult) : calculate_similarity_score e .null d = 0 := by
  unfold calculate_similarity_score
  rw [he]
  rfl

theorem similarity_score_null_expected (x : JsonValue) (hx : x.isNull = false)
    (d : DiffResult) : calculate_similarity_score .null x d = 0 := by
  unfold calculate_similarity_score
  rw [hx]
  rfl

/-- C6 counterexample: an already-parsed structured value that is not a
mapping is not passed through unchanged; a list input reaches
`json.loads(response)` and the resulting `TypeError` escapes. -/
theorem C6_counterexample_list_raises :
    parse_json_from_response jsonLoadsTable (.ofVal (.arr [])) = .error .typeError := rfl

/-- C6 (amended): only an already-parsed mapping is passed through
unchanged (any other non-string structured value raises an uncaught
`TypeError`); for every string input the extractor attempts, in order, the
whole-string parse, the greedy brace-delimited substring, and the
fenced-code-block payload, returning the first success, and when all three
attempts fail it returns `None`; no exception ever escapes on a string
input. -/
theorem C6_amended_extraction_contract :
    (∀ jsonLoads fs, parse_json_from_response jsonLoads (.ofVal (.obj fs)) = .ok (.obj fs)) ∧
    (∀ jsonLoads v, v.isObj = false →
      parse_json_from_response jsonLoads (.ofVal v) = .error .typeError) ∧
    (∀ jsonLoads s, ∃ v, parse_json_from_response jsonLoads (.ofStr s) = .ok v) ∧
    (∀ jsonLoads s v, jsonLoads s = some v →
      parse_json_from_response jsonLoads (.ofStr s) = .ok v) ∧
    (∀ jsonLoads s sub v, jsonLoads s = none → braceSearch s = some sub →
      jsonLoads sub = some v →
      parse_json_from_response jsonLoads (.ofStr s) = .ok v) ∧
    (∀ jsonLoads s sub v, jsonLoads s = none → (braceSearch s).bind jsonLoads = none →
      fenceSearch s = some sub → jsonLoads sub = some v →
      parse_json_from_response jsonLoads (.ofStr s) = .ok v) ∧
    (∀ jsonLoads s, jsonLoads s = none → (braceSearch s).bind jsonLoads = none →
      (fenceSearch s).bind jsonLoads = none →
      parse_json_from_response jsonLoads (.ofStr s) = .ok .null) := by
  refine ⟨fun jsonLoads fs => rfl, ?_, ?_, ?_, ?_, ?_, ?_⟩
  · intro jsonLoads v hv
    simp [parse_json_from_response, hv]
  · intro jsonLoads s
    exact ⟨extract_from_string jsonLoads s, rfl⟩
  · intro jsonLoads s v h
    simp [parse_json_from_response, extract_from_string, h]
  · intro jsonLoads s sub v h0 hb hj
    simp [parse_json_from_response, extract_from_string, h0, hb, hj]
  · intro jsonLoads s sub v h0 hbb hf hj
    simp [parse_json_from_response, extract_from_string, h0, hbb, hf, hj]
  · intro jsonLoads s h0 hbb hff
    simp [parse_json_from_response, extract_from_string, h0, hbb, hff]

theorem C6_witness :
    parse_json_from_response jsonLoadsTable (.ofStr "not json at all") = .ok .null :=
  C6_amended_extraction_contract.2.2.2.2.2.2 jsonLoadsTable "not json at all" rfl rfl rfl

/-- C7: the claimed recovery for an unparseable ground truth never
happens: `parse_json_from_response` swallows the `json.JSONDecodeError`,
so the source's handler is dead; the unparseable ground truth flows
through as `None`, the field score map is empty, and the metric raises
`ZeroDivisionError` instead of returning the diagnostic triple. -/
theorem C7_ground_truth_parse_failure_crashes :
    llm_structured_output_metric jsonLoadsTable deepDiffModel
      (.ofStr "\x7b\"x\":1\x7d") (.ofStr "not json at all") = .error .zeroDivisionError := rfl

/-- C8: whenever extraction of the output returns the `None` failure
signal while the ground truth parsed, the metric returns score 0 and an
observation carrying the extraction-failure error message and the parsed
expected data, echoing the original output. -/
theorem C8_extraction_failure_returns_zero :
    ∀ jsonLoads dd output output_true e,
      parse_json_from_response jsonLoads output_true = .ok e →
      parse_json_from_response jsonLoads output = .ok .null →
      llm_structured_output_metric jsonLoads dd output output_true =
        .ok (0, .obj [("score", .num 0),
                      ("error", .str "Failed to extract valid JSON from LLM response"),
                      ("expected_data", e)], output) := by
  intro jsonLoads dd output output_true e h1 h2
  unfold llm_structured_output_metric
  rw [h1, h2]
  rfl

theorem C8_witness :
    llm_structured_output_metric jsonLoadsTable deepDiffModel
      (.ofStr "not json at all") (.ofStr "\x7b\"x\":1\x7d") =
      .ok (0, .obj [("score", .num 0),
                    ("error", .str "Failed to extract valid JSON from LLM response"),
                    ("expected_data", .obj [("x", .num 1)])],
           .ofStr "not json at all") :=
  C8_extraction_failure_returns_zero jsonLoadsTable deepDiffModel
    (.ofStr "not json at all") (.ofStr "\x7b\"x\":1\x7d") (.obj [("x", .num 1)]) rfl rfl

/-- C9: field-level scoring returns the empty map when either side is not
a mapping; otherwise its key set is exactly the union of the two top-level
key sets, and every key is mapped to (exactly) the similarity score of its
two values under the per-key diff, independently per key and for any
differ. -/
theorem C9_field_level_scores_structure :
    (∀ differ e x, e.isObj = false ∨ x.isObj = false →
      calculate_field_level_scores differ e x = []) ∧
    (∀ differ fs gs k,
      k ∈ (calculate_field_level_scores differ (.obj fs) (.obj gs)).map Prod.fst ↔
        (k ∈ dictKeys fs ∨ k ∈ dictKeys gs)) ∧
    (∀ differ fs gs k s, (k, s) ∈ calculate_field_level_scores differ (.obj fs) (.obj gs) →
      s = calculate_similarity_score (dictGet fs k) (dictGet gs k)
            (differ (dictGet fs k) (dictGet gs k))) ∧
    (∀ differ fs gs k, k ∈ dictKeys fs ∨ k ∈ dictKeys gs →
      (k, calculate_similarity_score (dictGet fs k) (dictGet gs k)
            (differ (dictGet fs k) (dictGet gs k))) ∈
        calculate_field_level_scores differ (.obj fs) (.obj gs)) := by
  refine ⟨?_, ?_, ?_, ?_⟩
  · intro differ e x h
    cases e <;> cases x <;> try rfl
    all_goals rcases h with h | h <;> simp [JsonValue.isObj] at h
  · intro differ fs gs k
    rw [field_scores_keys]
    simp [List.mem_dedup]
  · intro differ fs gs k s h
    exact ((mem_field_scores_iff differ fs gs k s).mp h).2
  · intro differ fs gs k h
    exact (mem_field_scores_iff differ fs gs k _).mpr ⟨h, rfl⟩

theorem C9_witness :
    calculate_field_level_scores (deepDiffModel true) (.num 1) (.str "a") = [] :=
  C9_field_level_scores_structure.1 (deepDiffModel true) (.num 1) (.str "a") (Or.inl rfl)

/-- C10: a top-level key present on only one side whose present value is
not null scores exactly 0, for any differ whatsoever: the absent side is
looked up as `None` and the one-sided-`None` case of the similarity
function short-circuits before the diff is consulted. -/
theorem C10_one_sided_key_scores_zero :
    (∀ differ fs gs k, k ∈ dictKeys fs → k ∉ dictKeys gs →
      (dictGet fs k).isNull = false →
      (k, 0) ∈ calculate_field_level_scores differ (.obj fs) (.obj gs) ∧
      ∀ s, (k, s) ∈ calculate_field_level_scores differ (.obj fs) (.obj gs) → s = 0) ∧
    (∀ differ fs gs k, k ∉ dictKeys fs → k ∈ dictKeys gs →
      (dictGet gs k).isNull = false →
      (k, 0) ∈ calculate_field_level_scores differ (.obj fs) (.obj gs) ∧
      ∀ s, (k, s) ∈ calculate_field_level_scores differ (.obj fs) (.obj gs) → s = 0) := by
  constructor
  · intro differ fs gs k hk1 hk2 hv
    have hnull : dictGet gs k = .null := dictGet_eq_null_of_not_mem gs k hk2
    have hzero : calculate_similarity_score (dictGet fs k) (dictGet gs k)
        (differ (dictGet fs k) (dictGet gs k)) = 0 := by
      rw [hnull]
      exact similarity_score_null_extracted _ hv _
    constructor
    · exact (mem_field_scores_iff differ fs gs k 0).mpr ⟨Or.inl hk1, hzero.symm⟩
    · intro s hs
      rw [((mem_field_scores_iff differ fs gs k s).mp hs).2, hzero]
  · intro differ fs gs k hk1 hk2 hv
    have hnull : dictGet fs k = .null := dictGet_eq_null_of_not_mem fs k hk1
    have hzero : calculate_similarity_score (dictGet fs k) (dictGet gs k)
        (differ (dictGet fs k) (dictGet gs k)) = 0 := by
      rw [hnull]
      exact similarity_score_null_expected _ hv _
    constructor
    · exact (mem_field_scores_iff differ fs gs k 0).mpr ⟨Or.inr hk2, hzero.symm⟩
    · intro s hs
      rw [((mem_field_scores_iff differ fs gs k s).mp hs).2, hzero]

theorem C10_witness :
    ("a", (0 : ℚ)) ∈ calculate_field_level_scores (deepDiffModel true)
      (.obj [("a", .num 1)]) (.obj []) :=
  (C10_one_sided_key_scores_zero.1 (deepDiffModel true) [("a", .num 1)] [] "a"
    (by simp [dictKeys]) (by simp [dictKeys]) rfl).1

theorem C3_witness : (0 : ℚ) ≤ 0 ∧ (0 : ℚ) ≤ 1 :=
  C3_every_score_in_unit_interval.2.2 jsonLoadsTable deepDiffModel
    (.ofStr "not json at all") (.ofStr "\x7b\"x\":1\x7d") 0
    (.obj [("score", .num 0), ("error", .str "Failed to extract valid JSON from LLM response"),
           ("expected_data", .obj [("x", .num 1)])])
    (.ofStr "not json at all") rfl

theorem C5_witness :
    calculate_field_level_scores (deepDiffModel true)
        (.obj [("name", .str "Alice"), ("age", .num 30)])
        (.obj [("name", .str "Alice"), ("age", .num 31)]) = [("name", 1), ("age", 0)] ∧
    llm_structured_output_metric jsonLoadsTable deepDiffModel
      (.ofStr "\x7b\"name\":\"Alice\",\"age\":31\x7d")
      (.ofStr "\x7b\"name\":\"Alice\",\"age\":30\x7d") =
      .ok (1 / 2,
           .obj [("score", .num (1 / 2)),
                 ("extracted_data", .obj [("name", .str "Alice"), ("age", .num 31)]),
                 ("expected_data", .obj [("name", .str "Alice"), ("age", .num 30)]),
                 ("field_scores", .obj [("name", .num 1), ("age", .num 0)])],
           .ofStr "\x7b\"name\":\"Alice\",\"age\":31\x7d") ∧
    (1 / 2 : ℚ) =
      ((calculate_field_level_scores (deepDiffModel true)
          (.obj [("name", .str "Alice"), ("age", .num 30)])
          (.obj [("name", .str "Alice"), ("age", .num 31)])).map Prod.snd).sum /
        ((calculate_field_level_scores (deepDiffModel true)
          (.obj [("name", .str "Alice"), ("age", .num 30)])
          (.obj [("name", .str "Alice"), ("age", .num 31)])).length : ℚ) :=
  have h := C5_overall_score_is_mean_of_field_scores.2 jsonLoadsTable deepDiffModel "root"
    rfl rfl rfl rfl
  ⟨h.1, h.2,
    C5_overall_score_is_mean_of_field_scores.1 jsonLoadsTable deepDiffModel
      (.ofStr "\x7b\"name\":\"Alice\",\"age\":31\x7d")
      (.ofStr "\x7b\"name\":\"Alice\",\"age\":30\x7d")
      (.obj [("name", .str "Alice"), ("age", .num 30)])
      (.obj [("name", .str "Alice"), ("age", .num 31)])
      (1 / 2) _ _ rfl rfl rfl h.2⟩
